import Mathlib

/-!
Shallow embedding of the realtime-notifications GraphQL server (`index.js`).

The server keeps a module-level array `notifications`, a `PubSub` broker and
a single topic constant.  The three resolvers are:

* `Query.notifications   : () => notifications`
* `Mutation.pushNotification : (root, args) => { const newNotification =
  { label: args.label }; notifications.push(newNotification);
  pubsub.publish(NOTIFICATION_SUBSCRIPTION_TOPIC,
  { newNotification: newNotification }); return newNotification; }`
* `Subscription.newNotification.subscribe : () =>
  pubsub.asyncIterator(NOTIFICATION_SUBSCRIPTION_TOPIC)`

The store and the broker registry are the only mutable state; we thread them
through every operation as an explicit `ServerState`.  The broker itself
(`PubSub` from graphql-subscriptions and the websocket subscription server)
is not part of this repository, so its operations are modelled from the
spec, as marked on each definition.
-/

/-- A notification value `{ label: string }`. -/
structure Notification where
  label : String
deriving Repr, DecidableEq

/-- `const NOTIFICATION_SUBSCRIPTION_TOPIC = 'newNotifications'`. -/
def NOTIFICATION_SUBSCRIPTION_TOPIC : String := "newNotifications"

/-- Modelled from the spec: a Subscriber Channel, one active subscription.
It carries the topic it registered under and its FIFO delivery queue
(events already delivered to it, oldest first). -/
structure Channel where
  id : Nat
  topic : String
  queue : List Notification
deriving Repr, DecidableEq

/-- The server's mutable state: the store (`const notifications = []`), the
broker's subscriber registry, and a counter for fresh channel handles. -/
structure ServerState where
  notifications : List Notification
  subscribers : List Channel
  nextId : Nat
deriving Repr, DecidableEq

/-- State at process start: empty log, no subscribers. -/
def initialState : ServerState := ⟨[], [], 0⟩

/-- Modelled from the spec: the broker's `publish(topic, event)` delivers
`event` to every channel currently registered on `topic`, appending it to
each channel's FIFO queue; channels on other topics are untouched and zero
registered channels is a no-op fan-out. -/
def publish (topic : String) (event : Notification) (s : ServerState) : ServerState :=
  { s with subscribers := s.subscribers.map fun c =>
      if c.topic = topic then { c with queue := c.queue ++ [event] } else c }

/-- Modelled from the spec: the broker's `subscribe(topic)` creates a fresh
channel with an empty queue (no historical backlog), registers it under
`topic` and returns its handle. -/
def subscribe (topic : String) (s : ServerState) : Nat × ServerState :=
  (s.nextId,
   { s with
      subscribers := s.subscribers ++ [⟨s.nextId, topic, []⟩],
      nextId := s.nextId + 1 })

/-- Modelled from the spec: `unsubscribe(handle)` deregisters the channel;
safe to call when the channel is already gone. -/
def unsubscribe (h : Nat) (s : ServerState) : ServerState :=
  { s with subscribers := s.subscribers.filter fun c => c.id != h }

namespace Query

/-- `Query.notifications` resolver: `() => notifications`, a pure read of
the store. -/
def notifications (s : ServerState) : List Notification :=
  s.notifications

end Query

namespace Mutation

/-- `Mutation.pushNotification` resolver: build `{ label: args.label }`,
push it onto the store, publish it on the fixed topic, return it. -/
def pushNotification (label : String) (s : ServerState) : Notification × ServerState :=
  let newNotification : Notification := ⟨label⟩
  let s1 : ServerState := { s with notifications := s.notifications ++ [newNotification] }
  (newNotification, publish NOTIFICATION_SUBSCRIPTION_TOPIC newNotification s1)

end Mutation

namespace Subscription

/-- `Subscription.newNotification.subscribe` resolver:
`() => pubsub.asyncIterator(NOTIFICATION_SUBSCRIPTION_TOPIC)`. -/
def newNotification (s : ServerState) : Nat × ServerState :=
  subscribe NOTIFICATION_SUBSCRIPTION_TOPIC s

end Subscription

/-- Request-level errors raised by the GraphQL layer before a resolver runs. -/
inductive GraphQLError where
  | nonNullViolation
deriving Repr, DecidableEq

/-- Modelled from the spec: the schema declares
`pushNotification(label: String!)`, so the GraphQL layer rejects a missing
label before the resolver is called; with a provided string it runs the
resolver.  Returns the request outcome together with the resulting state. -/
def handlePushNotification (arg : Option String) (s : ServerState) :
    Except GraphQLError Notification × ServerState :=
  match arg with
  | none => (Except.error GraphQLError.nonNullViolation, s)
  | some label =>
      let r := Mutation.pushNotification label s
      (Except.ok r.1, r.2)

/-- Run a whole sequence of successful `pushNotification` mutations. -/
def pushAll (ls : List String) (s : ServerState) : ServerState :=
  ls.foldl (fun st l => (Mutation.pushNotification l st).2) s

/-- Cumulative effect of a sequence of publishes on one channel: a channel
on the fixed topic receives every event, in publish order. -/
def deliverSeq (ls : List String) (c : Channel) : Channel :=
  if c.topic = NOTIFICATION_SUBSCRIPTION_TOPIC then
    { c with queue := c.queue ++ ls.map Notification.mk }
  else c

/-- The delivery queue of the most recently registered channel. -/
def lastQueue (s : ServerState) : List Notification :=
  ((s.subscribers.getLast?).map Channel.queue).getD []

/-- Look up a registered channel in the broker's registry by its handle. -/
def findChannel (h : Nat) (s : ServerState) : Option Channel :=
  s.subscribers.find? fun c => c.id == h

/-- States reachable from process start through the program's operations. -/
inductive Reachable : ServerState → Prop where
  | init : Reachable initialState
  | push : ∀ (l : String) (s : ServerState), Reachable s →
      Reachable (Mutation.pushNotification l s).2
  | sub : ∀ (s : ServerState), Reachable s →
      Reachable (Subscription.newNotification s).2
  | unsub : ∀ (h : Nat) (s : ServerState), Reachable s →
      Reachable (unsubscribe h s)

section Lemmas

theorem pushAll_nil (s : ServerState) : pushAll [] s = s := rfl

theorem pushAll_cons (l : String) (ls : List String) (s : ServerState) :
    pushAll (l :: ls) s = pushAll ls (Mutation.pushNotification l s).2 := rfl

theorem pushAll_notifications (ls : List String) (s : ServerState) :
    (pushAll ls s).notifications = s.notifications ++ ls.map Notification.mk := by
  induction ls generalizing s with
  | nil => simp [pushAll]
  | cons l ls ih =>
      rw [pushAll_cons, ih]
      simp [Mutation.pushNotification, publish]

theorem pushAll_subscribers (ls : List String) (s : ServerState) :
    (pushAll ls s).subscribers = s.subscribers.map (deliverSeq ls) := by
  induction ls generalizing s with
  | nil =>
      rw [pushAll_nil]
      have h2 : s.subscribers.map (deliverSeq []) = s.subscribers.map id :=
        List.map_congr_left (fun c _ => by unfold deliverSeq; split <;> simp)
      rw [h2, List.map_id]
  | cons l ls ih =>
      rw [pushAll_cons, ih]
      simp only [Mutation.pushNotification, publish, List.map_map]
      apply List.map_congr_left
      intro c _
      simp only [Function.comp_apply, deliverSeq]
      by_cases h : c.topic = NOTIFICATION_SUBSCRIPTION_TOPIC
      · simp [h, List.append_assoc]
      · simp [h]

theorem pushAll_nextId (ls : List String) (s : ServerState) :
    (pushAll ls s).nextId = s.nextId := by
  induction ls generalizing s with
  | nil => rfl
  | cons l ls ih =>
      rw [pushAll_cons, ih]
      rfl

theorem deliverSeq_id (ls : List String) (c : Channel) :
    (deliverSeq ls c).id = c.id := by
  unfold deliverSeq
  split <;> rfl

end Lemmas

/-- C1 counterexample: at the empty store, the mutation called with the
empty-string label does not fail and does grow the log: it returns
`{label := ""}` successfully and the stored sequence changes from `[]` to
`[{label := ""}]`, so the claimed `ValidationError`-and-unchanged-store
behaviour is false. -/
theorem c1_empty_label_counterexample :
    (handlePushNotification (some "") initialState).1 = Except.ok ⟨""⟩ ∧
    (handlePushNotification (some "") initialState).2.notifications = [⟨""⟩] ∧
    (handlePushNotification (some "") initialState).2.notifications ≠
      initialState.notifications := by
  refine ⟨rfl, rfl, ?_⟩
  decide

/-- C1 amended: calling the mutation with an empty-string label succeeds for
every state of the store: the resolver performs no validation, returns
`{label := ""}` and appends it to the log, growing it by one; only an absent
label fails, rejected by the schema's non-null argument check before the
resolver runs, which leaves the state unchanged. -/
theorem c1_amended_empty_label_succeeds (s : ServerState) :
    (handlePushNotification (some "") s).1 = Except.ok ⟨""⟩ ∧
    (handlePushNotification (some "") s).2.notifications = s.notifications ++ [⟨""⟩] ∧
    handlePushNotification none s = (Except.error GraphQLError.nonNullViolation, s) :=
  ⟨rfl, rfl, rfl⟩

/-- C2: starting from the empty store, after successful appends of the labels
in `ls` the `notifications` query returns exactly `[{label := l1}, …]` in
insertion order with no deletion or reordering, and the query is a pure read:
for every state it returns the store's log as-is and has no effect on the
state. -/
theorem c2_listAll_insertion_order (ls : List String) :
    Query.notifications (pushAll ls initialState) = ls.map Notification.mk ∧
    ∀ s : ServerState, Query.notifications s = s.notifications := by
  refine ⟨?_, fun s => rfl⟩
  show (pushAll ls initialState).notifications = ls.map Notification.mk
  rw [pushAll_notifications]
  simp [initialState]

/-- C9: for every string label, including `""`, the resolver succeeds with no
validation of its own: the entry appended to the store, the payload delivered
to each channel registered on the topic, and the returned value are all
exactly `{label := label}`, stored verbatim with no transformation. -/
theorem c9_no_validation_verbatim (label : String) (s : ServerState) :
    (handlePushNotification (some label) s).1 = Except.ok ⟨label⟩ ∧
    (handlePushNotification (some label) s).2.notifications
      = s.notifications ++ [⟨label⟩] ∧
    (handlePushNotification (some label) s).2.subscribers
      = s.subscribers.map (fun c =>
          if c.topic = NOTIFICATION_SUBSCRIPTION_TOPIC then
            { c with queue := c.queue ++ [⟨label⟩] }
          else c) ∧
    (handlePushNotification (some "") s).1 = Except.ok ⟨""⟩ :=
  ⟨rfl, rfl, rfl, rfl⟩

/-- C3: a successful `pushNotification label` returns `{label := label}`,
every channel currently registered on the subscription topic receives that
same payload appended to its queue, and a subsequent `notifications` query
returns the previous log with that value appended at the end; in particular
`pushNotification "hello"` returns `{label := "hello"}`. -/
theorem c3_push_returns_delivers_appends (label : String) (s : ServerState) :
    (Mutation.pushNotification label s).1 = ⟨label⟩ ∧
    (∀ c ∈ s.subscribers, c.topic = NOTIFICATION_SUBSCRIPTION_TOPIC →
      { c with queue := c.queue ++ [⟨label⟩] }
        ∈ (Mutation.pushNotification label s).2.subscribers) ∧
    Query.notifications (Mutation.pushNotification label s).2
      = s.notifications ++ [⟨label⟩] ∧
    (Mutation.pushNotification "hello" s).1 = ⟨"hello"⟩ := by
  refine ⟨rfl, ?_, rfl, rfl⟩
  intro c hc ht
  have hm : (if c.topic = NOTIFICATION_SUBSCRIPTION_TOPIC then
      { c with queue := c.queue ++ [(⟨label⟩ : Notification)] } else c)
      ∈ (Mutation.pushNotification label s).2.subscribers :=
    List.mem_map_of_mem _ hc
  rwa [if_pos ht] at hm

/-- C3 witness: at a state with one registered channel on the topic, pushing
`"hi"` delivers the payload to that channel. -/
theorem c3_witness :
    (Mutation.pushNotification "hi"
        ⟨[], [⟨0, NOTIFICATION_SUBSCRIPTION_TOPIC, []⟩], 1⟩).1 = ⟨"hi"⟩ ∧
    (⟨0, NOTIFICATION_SUBSCRIPTION_TOPIC, [⟨"hi"⟩]⟩ : Channel)
      ∈ (Mutation.pushNotification "hi"
          ⟨[], [⟨0, NOTIFICATION_SUBSCRIPTION_TOPIC, []⟩], 1⟩).2.subscribers := by
  have h := c3_push_returns_delivers_appends "hi"
      ⟨[], [⟨0, NOTIFICATION_SUBSCRIPTION_TOPIC, []⟩], 1⟩
  exact ⟨h.1, h.2.1 ⟨0, NOTIFICATION_SUBSCRIPTION_TOPIC, []⟩ (by simp) rfl⟩

/-- C4: the mutation is exactly append-then-publish: its resulting state is
the broker's publish of the new value applied to the store-appended state;
with zero subscribers it still succeeds, returning the notification after a
no-op fan-out; and over any run the store's log and each channel's delivered
queue extend by the same labels in the same order, so global publish order
matches global append order. -/
theorem c4_publish_follows_append (label : String) (ls : List String) (s : ServerState) :
    (Mutation.pushNotification label s).2
      = publish NOTIFICATION_SUBSCRIPTION_TOPIC ⟨label⟩
          { s with notifications := s.notifications ++ [⟨label⟩] } ∧
    (Mutation.pushNotification label { s with subscribers := [] }).1 = ⟨label⟩ ∧
    (Mutation.pushNotification label { s with subscribers := [] }).2.subscribers = [] ∧
    (pushAll ls s).notifications = s.notifications ++ ls.map Notification.mk ∧
    ∀ i : Nat, (pushAll ls s).subscribers[i]? = (s.subscribers[i]?).map (deliverSeq ls) := by
  refine ⟨rfl, rfl, rfl, pushAll_notifications ls s, ?_⟩
  intro i
  rw [pushAll_subscribers]
  exact List.getElem?_map (deliverSeq ls) s.subscribers i

/-- C5: a channel registered via the subscription resolver before a run of
publishes observes exactly those events, each exactly once and in FIFO
publish order: after subscribing and then pushing the labels `ls`, the
registered channel's queue is precisely `ls.map Notification.mk`. -/
theorem c5_fifo_exactly_once (s : ServerState) (ls : List String) :
    (pushAll ls (Subscription.newNotification s).2).subscribers.getLast?
      = some ⟨(Subscription.newNotification s).1,
              NOTIFICATION_SUBSCRIPTION_TOPIC, ls.map Notification.mk⟩ := by
  rw [pushAll_subscribers]
  show ((s.subscribers ++ [(⟨s.nextId, NOTIFICATION_SUBSCRIPTION_TOPIC, []⟩ : Channel)]).map
      (deliverSeq ls)).getLast? = _
  rw [List.map_append, List.map_singleton, List.getLast?_concat]
  simp [deliverSeq, Subscription.newNotification, subscribe]

/-- C6: a channel created by subscribe starts with an empty queue — no
historical backlog from the store is delivered, whatever the store holds at
registration time — and after any subsequent run of publishes, every event in
its queue is one of the post-registration publishes. -/
theorem c6_no_backlog (s : ServerState) (ls : List String) (n : Notification) :
    lastQueue (Subscription.newNotification s).2 = [] ∧
    (n ∈ lastQueue (pushAll ls (Subscription.newNotification s).2) →
      n ∈ ls.map Notification.mk) := by
  constructor
  · show ((((s.subscribers ++ [(⟨s.nextId, NOTIFICATION_SUBSCRIPTION_TOPIC, []⟩ : Channel)])).getLast?).map
        Channel.queue).getD [] = []
    rw [List.getLast?_concat]
    rfl
  · have hq : lastQueue (pushAll ls (Subscription.newNotification s).2)
        = ls.map Notification.mk := by
      unfold lastQueue
      rw [pushAll_subscribers]
      show ((((s.subscribers ++ [(⟨s.nextId, NOTIFICATION_SUBSCRIPTION_TOPIC, []⟩ : Channel)]).map
          (deliverSeq ls)).getLast?).map Channel.queue).getD [] = _
      rw [List.map_append, List.map_singleton, List.getLast?_concat]
      simp [deliverSeq]
    rw [hq]
    exact id

/-- C6 witness: from the empty store, subscribing and then pushing `"a"`
yields a channel whose queue started empty and whose sole observed event is
the post-registration publish. -/
theorem c6_witness :
    lastQueue (Subscription.newNotification initialState).2 = [] ∧
    (⟨"a"⟩ : Notification) ∈ (["a"].map Notification.mk) := by
  refine ⟨(c6_no_backlog initialState ["a"] ⟨"a"⟩).1, ?_⟩
  refine (c6_no_backlog initialState ["a"] ⟨"a"⟩).2 ?_
  decide

/-- C7: after `unsubscribe h`, no subsequent run of publishing mutations ever
delivers to the removed channel — the handle stays absent from the registry —
and `unsubscribe` is idempotent: a second call on the same handle is a no-op
that changes nothing and raises no error. -/
theorem c7_unsubscribe_removes_and_idempotent (h : Nat) (ls : List String) (s : ServerState) :
    findChannel h (pushAll ls (unsubscribe h s)) = none ∧
    unsubscribe h (unsubscribe h s) = unsubscribe h s := by
  constructor
  · unfold findChannel
    rw [pushAll_subscribers]
    rw [List.find?_map]
    have hnone : (unsubscribe h s).subscribers.find?
        ((fun c => c.id == h) ∘ deliverSeq ls) = none := by
      rw [List.find?_eq_none]
      intro c hc
      have hid : ((fun c => c.id == h) ∘ deliverSeq ls) c = (c.id == h) := by
        simp [Function.comp_apply, deliverSeq_id]
      rw [hid]
      have hmem := List.mem_filter.mp hc
      simpa using hmem.2
    rw [hnone]
    rfl
  · show ServerState.mk _ _ _ = ServerState.mk _ _ _
    simp [unsubscribe, List.filter_filter]

/-- C8: whenever the `pushNotification` request fails with a request-level
error, the whole server state — the notification store and the broker's
subscriber registry alike — is exactly what it was before the call: no
partial append and no publish happen. -/
theorem c8_failed_mutation_preserves_state (arg : Option String) (s : ServerState)
    (e : GraphQLError) (herr : (handlePushNotification arg s).1 = Except.error e) :
    (handlePushNotification arg s).2 = s := by
  cases arg with
  | none => rfl
  | some label => simp [handlePushNotification] at herr

/-- C8 witness: a missing label fails and leaves the initial state intact. -/
theorem c8_witness : (handlePushNotification none initialState).2 = initialState :=
  c8_failed_mutation_preserves_state none initialState GraphQLError.nonNullViolation rfl

/-- C10: in every reachable state each registered channel is on the single
fixed topic `newNotifications` — the program never targets another topic —
and consequently a mutation delivers its notification to every registered
channel without exception. -/
theorem c10_single_topic_full_fanout (s : ServerState) (hs : Reachable s) :
    (∀ c ∈ s.subscribers, c.topic = NOTIFICATION_SUBSCRIPTION_TOPIC) ∧
    ∀ l : String, (Mutation.pushNotification l s).2.subscribers
      = s.subscribers.map fun c => { c with queue := c.queue ++ [⟨l⟩] } := by
  have hinv : ∀ t : ServerState, Reachable t → ∀ c ∈ t.subscribers,
      c.topic = NOTIFICATION_SUBSCRIPTION_TOPIC := by
    intro t ht
    induction ht with
    | init =>
        intro c hc
        simp [initialState] at hc
    | push l t _ ih =>
        intro c hc
        simp only [Mutation.pushNotification, publish] at hc
        obtain ⟨c', hc', hmap⟩ := List.mem_map.mp hc
        have htop : c.topic = c'.topic := by
          rw [← hmap]
          split <;> rfl
        rw [htop]
        exact ih c' hc'
    | sub t _ ih =>
        intro c hc
        simp only [Subscription.newNotification, subscribe] at hc
        rcases List.mem_append.mp hc with hin | hone
        · exact ih c hin
        · rw [List.mem_singleton.mp hone]
    | unsub hdl t _ ih =>
        intro c hc
        exact ih c (List.mem_filter.mp hc).1
  refine ⟨hinv s hs, ?_⟩
  intro l
  show (publish NOTIFICATION_SUBSCRIPTION_TOPIC ⟨l⟩ _).subscribers = _
  simp only [publish]
  apply List.map_congr_left
  intro c hc
  rw [if_pos (hinv s hs c hc)]

/-- C10 witness: the invariant and full fan-out at the reachable state with
one registered channel, obtained by subscribing from the initial state. -/
theorem c10_witness :
    (∀ c ∈ (Subscription.newNotification initialState).2.subscribers,
        c.topic = NOTIFICATION_SUBSCRIPTION_TOPIC) ∧
    ∀ l : String,
      (Mutation.pushNotification l (Subscription.newNotification initialState).2).2.subscribers
        = (Subscription.newNotification initialState).2.subscribers.map
            fun c => { c with queue := c.queue ++ [⟨l⟩] } :=
  c10_single_topic_full_fanout (Subscription.newNotification initialState).2
    (Reachable.sub initialState Reachable.init)
